import Mathlib

/-!
Verification of the machine-state coordination layer of moonraker-for-cnc.

The embedding covers:
* the completion-triggered reset listeners of
  src/moonraker/components/m2_restart_handler.py and
  src/moonraker/components/m30_handler.py
  (methods check restart execution and check m30 execution);
* the modal-state endpoint of
  src/moonraker/components/cnc_extended_api.py
  (method handle modal state: GET, POST, DELETE branches);
* the tool-database endpoints of
  src/moonraker/components/tool_database.py
  (update, delete, info, stats, monitoring start).

Python dicts delivered on the event stream are modelled as association
lists; the downstream interpreter is an abstract parameter except where a
claim needs a concrete stack, which is then modelled from the spec.
-/

/-- Log severities used by the handlers (logging.debug / info / error). -/
inductive LogLevel where
  | debug
  | info
  | errorLevel
deriving DecidableEq, Repr

/-- A status-update notification: a dict from status-object name to a dict
of fields, as delivered to server status-update event listeners. -/
abbrev StatusUpdate := List (String × List (String × String))

/-- Python dict .get: first binding of the key, if any. -/
def dictGet {α : Type} (d : List (String × α)) (k : String) : Option α :=
  (d.find? (fun p => p.1 == k)).map (fun p => p.2)

/-- status update .get of print stats (default empty dict) then .get of state,
as in both completion listeners. -/
def printStatsState (su : StatusUpdate) : Option String :=
  dictGet ((dictGet su ("print_stats")).getD []) ("state")

/-- What one listener invocation did: the commands it sent downstream and
the single log record it wrote, if any.  The listener body sits entirely
inside try/except with no re-raise, so the embedding is a total function:
no exception escapes. -/
structure ListenerOutcome where
  commands : List String
  log : Option (LogLevel × String)
deriving DecidableEq, Repr

/-- The try-block of both listeners: look up the klippy apis component
(fails when the interpreter is unreachable), then run SDCARD_RESET_FILE
(the command is sent and may then be rejected).  Returns the outcome of the
attempt together with the commands that actually went out. -/
def tryResetViaKlippy (connected gcodeOk : Bool) :
    Except String Unit × List String :=
  if !connected then
    (Except.error ("component not found"), [])
  else if gcodeOk then
    (Except.ok (), [("SDCARD_RESET_FILE")])
  else
    (Except.error ("gcode failed"), [("SDCARD_RESET_FILE")])

/-- m2_restart_handler.py, check restart execution: on a status update whose
print stats state is complete, attempt the reset; success is logged at info,
any failure is logged at debug and swallowed. -/
def checkRestartExecution (connected gcodeOk : Bool) (su : StatusUpdate) :
    ListenerOutcome :=
  if printStatsState su == some ("complete") then
    match tryResetViaKlippy connected gcodeOk with
    | (Except.ok _, tr) =>
        { commands := tr
          log := some (LogLevel.info,
            ("M2 RESTART detected - File position reset for repeat (CNC mode)")) }
    | (Except.error _, tr) =>
        { commands := tr
          log := some (LogLevel.debug, ("Could not reset file position")) }
  else
    { commands := [], log := none }

/-- m30_handler.py, check m30 execution: structurally identical to the M2
listener, with its own log text on success. -/
def checkM30Execution (connected gcodeOk : Bool) (su : StatusUpdate) :
    ListenerOutcome :=
  if printStatsState su == some ("complete") then
    match tryResetViaKlippy connected gcodeOk with
    | (Except.ok _, tr) =>
        { commands := tr
          log := some (LogLevel.info,
            ("Job complete - File position reset for repeat (M30 behavior)")) }
    | (Except.error _, tr) =>
        { commands := tr
          log := some (LogLevel.debug, ("Could not reset file position")) }
  else
    { commands := [], log := none }

/-- Both components register their listener on the server status-update
event once klippy is ready, so a delivered notification reaches both. -/
def registeredCompletionListeners :
    List (Bool → Bool → StatusUpdate → ListenerOutcome) :=
  [checkRestartExecution, checkM30Execution]

/-- Total number of SDCARD_RESET_FILE commands issued when one status-update
notification is delivered to every registered listener. -/
def resetsIssued (connected gcodeOk : Bool) (su : StatusUpdate) : Nat :=
  (registeredCompletionListeners.map
    (fun f => (f connected gcodeOk su).commands.count ("SDCARD_RESET_FILE"))).sum

/-- A status update reporting print stats state complete. -/
def completeUpdate : StatusUpdate :=
  [(("print_stats"), [(("state"), ("complete"))])]

/-! ## Modal state endpoint (cnc_extended_api.py, handle modal state) -/

/-- The downstream interpreter as seen by the handler: run_gcode sends one
textual command and either succeeds with the new interpreter state or
raises (the state is then unchanged); query_objects is a read. -/
structure Interp (σ : Type) where
  exec : String → σ → Except String σ
  query : σ → Except String Unit

/-- HTTP request types accepted by the modal-state endpoint. -/
inductive ReqType where
  | get
  | post
  | delete
deriving DecidableEq, Repr

/-- The JSON envelope returned by the modal-state endpoint: a result
indicator plus the optional message / action / command fields. -/
structure ModalResponse where
  result : String
  message : Option String
  action : Option String
  command : Option String
deriving DecidableEq, Repr

/-- The command_map dict of the POST branch. -/
def commandMap (a : String) : Option String :=
  if a = ("save") then some ("M70")
  else if a = ("restore") then some ("M72")
  else if a = ("invalidate") then some ("M71")
  else if a = ("auto_save") then some ("M73")
  else none

/-- The DELETE branch loop: up to the given fuel (10 in the source, the
maximum number of nested states), send M71; the first rejection breaks the
loop.  Returns the final downstream state and the commands sent (a rejected
send still went out). -/
def clearLoop {σ : Type} (it : Interp σ) : σ → Nat → σ × List String
  | s, 0 => (s, [])
  | s, n + 1 =>
    match it.exec ("M71") s with
    | Except.error _ => (s, [("M71")])
    | Except.ok s2 =>
      let r := clearLoop it s2 n
      (r.1, ("M71") :: r.2)

/-- cnc_extended_api.py, handle modal state.  Arguments: the downstream
interpreter, whether klippy_apis has been resolved, the request type, the
action body field (None falls back to save, as in web_request.get), and the
downstream state.  Returns the response envelope, the downstream state
after the call, and the commands sent.  The function is total: every
downstream failure is caught and turned into an error envelope. -/
def handleModalState {σ : Type} (it : Interp σ) (connected : Bool)
    (rt : ReqType) (actionArg : Option String) (s : σ) :
    ModalResponse × σ × List String :=
  if !connected then
    ({ result := ("error"), message := some ("Klippy not connected")
       action := none, command := none }, s, [])
  else
    match rt with
    | ReqType.get =>
      match it.query s with
      | Except.ok _ =>
          ({ result := ("success"), message := some ("Modal state tracking active")
             action := none, command := none }, s, [])
      | Except.error e =>
          ({ result := ("error"), message := some e
             action := none, command := none }, s, [])
    | ReqType.post =>
      let action := actionArg.getD ("save")
      match commandMap action with
      | none =>
          ({ result := ("error"), message := some (("Invalid action: ") ++ action)
             action := none, command := none }, s, [])
      | some cmd =>
        match it.exec cmd s with
        | Except.ok s2 =>
            ({ result := ("success"), message := none
               action := some action, command := some cmd }, s2, [cmd])
        | Except.error e =>
            ({ result := ("error"), message := some e
               action := none, command := none }, s, [cmd])
    | ReqType.delete =>
      let r := clearLoop it s 10
      ({ result := ("success"), message := some ("All modal states cleared")
         action := none, command := none }, r.1, r.2)

/-- Modelled from the spec: the downstream interpreter's modal-state stack
is not part of this repository's source tree; the spec gives it a bound of
10 (CapacityExceeded on save at the bound) and the DELETE branch of the
handler relies on a pop of the empty stack being rejected (its break on
failure).  State is the current depth. -/
def modalExec (g : String) (d : Nat) : Except String Nat :=
  if g = ("M70") then
    if 10 ≤ d then Except.error ("CapacityExceeded") else Except.ok (d + 1)
  else if g = ("M71") ∨ g = ("M72") then
    if d = 0 then Except.error ("NoStateSaved") else Except.ok (d - 1)
  else if g = ("M73") then Except.ok d
  else Except.error ("unknown command")

/-- Modelled from the spec: the downstream modal-state interpreter with a
depth-only state. -/
def modalInterp : Interp Nat :=
  { exec := modalExec, query := fun _ => Except.ok () }

/-! ## Tool database endpoints (tool_database.py)

The ToolDatabaseAPI handlers contain no try/except: any failure of the
underlying run_gcode or query escapes the handler.  They are therefore
embedded as functions into Except: ok is the JSON response the handler
returns, error is an exception leaving the handler. -/

/-- A tool record as reported by the downstream tool-database status
object.  Fields a record may lack are Options (dict .get with default). -/
structure Tool where
  id : Int
  name : String
  ttype : String
  total_runtime : Option ℚ
  total_distance : Option ℚ
  is_active : Option Bool
deriving DecidableEq, Repr

/-- The tool-database status object: the tool list and the current tool. -/
structure ToolDb where
  tools : List Tool
  current_tool : Option Tool
deriving DecidableEq, Repr

/-- The run gcode helper of ToolDatabaseAPI: with the interpreter
unreachable the send raises before any command goes out; a sent command may
still be rejected, which also raises.  Second component: commands sent. -/
def tdRun (connected gcodeOk : Bool) (g : String) :
    Except String Unit × List String :=
  if !connected then (Except.error ("Klippy not connected"), [])
  else if gcodeOk then (Except.ok (), [g])
  else (Except.error ("command rejected"), [g])

/-- The success envelope of the simple tool endpoints. -/
structure ToolDbResp where
  success : Bool
  message : String
deriving DecidableEq, Repr

/-- tool_database.py, handle delete tool: send REMOVE_TOOL and report
success; a failure escapes as an exception. -/
def handleDeleteTool (connected gcodeOk : Bool) (toolId : Int) :
    Except String ToolDbResp × List String :=
  match tdRun connected gcodeOk (("REMOVE_TOOL ID=") ++ toString toolId) with
  | (Except.error e, tr) => (Except.error e, tr)
  | (Except.ok _, tr) =>
      (Except.ok { success := true
                   message := ("Tool ") ++ toString toolId ++ (" deleted successfully") },
       tr)

/-- tool_database.py, handle start monitoring. -/
def handleStartMonitoring (connected gcodeOk : Bool) :
    Except String ToolDbResp × List String :=
  match tdRun connected gcodeOk ("START_TOOL_MONITORING") with
  | (Except.error e, tr) => (Except.error e, tr)
  | (Except.ok _, tr) =>
      (Except.ok { success := true, message := ("Tool monitoring started") }, tr)

/-- True on a Python-truthy optional integer: present and nonzero.  The
handler tests the raw parameter with a bare if, so 0 behaves like None. -/
def pyTruthyInt : Option Int → Bool
  | none => false
  | some n => !(n == 0)

/-- The TOOL_INFO command built by handle tool info. -/
def toolInfoGcode (idArg : Option Int) : String :=
  if pyTruthyInt idArg then ("TOOL_INFO ID=") ++ toString (idArg.getD 0)
  else ("TOOL_INFO")

/-- Failures leaving handle tool info: an escaped downstream exception, or
the explicit HTTPError 404 Tool not found. -/
inductive ToolInfoErr where
  | gcodeErr (msg : String)
  | notFound
deriving DecidableEq, Repr

/-- tool_database.py, handle tool info: send TOOL_INFO (with ID only for a
truthy id argument), then resolve the tool from the queried database — by
id when the argument is truthy, otherwise the current tool — and 404 when
the resolved tool is absent. -/
def handleToolInfo (connected gcodeOk : Bool) (idArg : Option Int)
    (db : ToolDb) : Except ToolInfoErr Tool × List String :=
  match tdRun connected gcodeOk (toolInfoGcode idArg) with
  | (Except.error e, tr) => (Except.error (ToolInfoErr.gcodeErr e), tr)
  | (Except.ok _, tr) =>
    let tool : Option Tool :=
      if pyTruthyInt idArg then db.tools.find? (fun t => t.id == idArg.getD 0)
      else db.current_tool
    match tool with
    | none => (Except.error ToolInfoErr.notFound, tr)
    | some t => (Except.ok t, tr)

/-! ### Update tool (partial-field patch) -/

/-- The seventeen optional fields of the update endpoint, in the order of
the params table of handle update tool. -/
inductive UField where
  | fname
  | ftype
  | diameter
  | length
  | flute_length
  | offset_x
  | offset_y
  | offset_z
  | max_rpm
  | feedrate
  | plunge_rate
  | angle
  | description
  | is_active
  | max_runtime
  | max_distance
  | wear_warning_threshold
deriving DecidableEq, Repr, Fintype

/-- The params table order of handle update tool. -/
def updateFields : List UField :=
  [UField.fname, UField.ftype, UField.diameter, UField.length,
   UField.flute_length, UField.offset_x, UField.offset_y, UField.offset_z,
   UField.max_rpm, UField.feedrate, UField.plunge_rate, UField.angle,
   UField.description, UField.is_active, UField.max_runtime,
   UField.max_distance, UField.wear_warning_threshold]

/-- The gcode parameter name of each field (second column of params). -/
def gcodeName : UField → String
  | UField.fname => ("NAME")
  | UField.ftype => ("TYPE")
  | UField.diameter => ("DIAMETER")
  | UField.length => ("LENGTH")
  | UField.flute_length => ("FLUTE_LENGTH")
  | UField.offset_x => ("OFFSET_X")
  | UField.offset_y => ("OFFSET_Y")
  | UField.offset_z => ("OFFSET_Z")
  | UField.max_rpm => ("MAX_RPM")
  | UField.feedrate => ("FEEDRATE")
  | UField.plunge_rate => ("PLUNGE_RATE")
  | UField.angle => ("ANGLE")
  | UField.description => ("DESCRIPTION")
  | UField.is_active => ("IS_ACTIVE")
  | UField.max_runtime => ("MAX_RUNTIME")
  | UField.max_distance => ("MAX_DISTANCE")
  | UField.wear_warning_threshold => ("WEAR_WARNING_THRESHOLD")

/-- An update request body: the mandatory id plus any subset of the
updatable fields (string, float and int typed as in the params table). -/
structure UpdateRequest where
  id : Int
  name : Option String := none
  ttype : Option String := none
  diameter : Option ℚ := none
  length : Option ℚ := none
  flute_length : Option ℚ := none
  offset_x : Option ℚ := none
  offset_y : Option ℚ := none
  offset_z : Option ℚ := none
  max_rpm : Option Int := none
  feedrate : Option ℚ := none
  plunge_rate : Option ℚ := none
  angle : Option ℚ := none
  description : Option String := none
  is_active : Option Int := none
  max_runtime : Option Int := none
  max_distance : Option ℚ := none
  wear_warning_threshold : Option Int := none
deriving DecidableEq, Repr

/-- The rendered value of one field of the request, if supplied: string
fields are wrapped in double quotes, float fields go through the given
float renderer (Python float formatting is outside the model), int fields
through toString. -/
def renderedField (showF : ℚ → String) (req : UpdateRequest) :
    UField → Option String
  | UField.fname => req.name.map (fun v => ("\"") ++ v ++ ("\""))
  | UField.ftype => req.ttype.map (fun v => ("\"") ++ v ++ ("\""))
  | UField.diameter => req.diameter.map showF
  | UField.length => req.length.map showF
  | UField.flute_length => req.flute_length.map showF
  | UField.offset_x => req.offset_x.map showF
  | UField.offset_y => req.offset_y.map showF
  | UField.offset_z => req.offset_z.map showF
  | UField.max_rpm => req.max_rpm.map (fun v => toString v)
  | UField.feedrate => req.feedrate.map showF
  | UField.plunge_rate => req.plunge_rate.map showF
  | UField.angle => req.angle.map showF
  | UField.description => req.description.map (fun v => ("\"") ++ v ++ ("\""))
  | UField.is_active => req.is_active.map (fun v => toString v)
  | UField.max_runtime => req.max_runtime.map (fun v => toString v)
  | UField.max_distance => req.max_distance.map showF
  | UField.wear_warning_threshold =>
      req.wear_warning_threshold.map (fun v => toString v)

/-- tool_database.py, handle update tool, command construction: start from
UPDATE_TOOL ID= and, walking the params table in order, append one
space-separated FIELD=value segment per supplied field. -/
def buildUpdateGcode (showF : ℚ → String) (req : UpdateRequest) : String :=
  updateFields.foldl
    (fun g f =>
      match renderedField showF req f with
      | none => g
      | some v => g ++ (" ") ++ gcodeName f ++ ("=") ++ v)
    (("UPDATE_TOOL ID=") ++ toString req.id)

/-- tool_database.py, handle update tool: build the command, send it, and
report success; a failure escapes as an exception. -/
def handleUpdateTool (connected gcodeOk : Bool) (showF : ℚ → String)
    (req : UpdateRequest) : Except String ToolDbResp × List String :=
  match tdRun connected gcodeOk (buildUpdateGcode showF req) with
  | (Except.error e, tr) => (Except.error e, tr)
  | (Except.ok _, tr) =>
      (Except.ok { success := true
                   message := ("Tool ") ++ toString req.id ++ (" updated successfully") },
       tr)

/-- Spec-side helper: concatenation of a list of string segments. -/
def concatSegs : List String → String
  | [] => ("")
  | s :: rest => s ++ concatSegs rest

/-- Spec-side: the (FIELD, rendered value) pairs of exactly the supplied
fields, in the fixed params order. -/
def suppliedPairs (showF : ℚ → String) (req : UpdateRequest) :
    List (String × String) :=
  updateFields.filterMap
    (fun f => (renderedField showF req f).map (fun v => (gcodeName f, v)))

/-- Spec-side, following the spec table for the update command: the literal
UPDATE_TOOL ID= prefix followed by one space-separated FIELD=value pair per
supplied field and no pair for any other field. -/
def specUpdateCommand (showF : ℚ → String) (req : UpdateRequest) : String :=
  (("UPDATE_TOOL ID=") ++ toString req.id) ++
    concatSegs ((suppliedPairs showF req).map
      (fun p => (" ") ++ p.1 ++ ("=") ++ p.2))

/-! ### Tool stats -/

/-- The runtime key of the stats aggregation: dict .get of total_runtime
with default 0. -/
def keyRT (t : Tool) : ℚ := t.total_runtime.getD 0

/-- Python max with a key function: fold that replaces the champion only on
a strictly greater key, so the first of equally-keyed elements survives;
None on the empty list (the handler guards with if tools else None). -/
def pyMaxBy {α : Type} (key : α → ℚ) : List α → Option α
  | [] => none
  | x :: xs => some (xs.foldl (fun b y => if key b < key y then y else b) x)

/-- tool_database.py, handle tool stats, most used tool selection. -/
def mostUsedTool (tools : List Tool) : Option Tool :=
  pyMaxBy keyRT tools

/-- The stats envelope of handle tool stats. -/
structure ToolStats where
  tool_count : Nat
  active_tools : Nat
  inactive_tools : Nat
  total_runtime : ℚ
  total_distance : ℚ
  most_used_tool : Option Tool
deriving DecidableEq, Repr

/-- tool_database.py, handle tool stats: counts, active split (is_active
defaults to true), runtime and distance sums (defaults 0), and the most
used tool. -/
def toolStatsOf (tools : List Tool) : ToolStats :=
  { tool_count := tools.length
    active_tools := (tools.filter (fun t => t.is_active.getD true)).length
    inactive_tools := (tools.filter (fun t => !(t.is_active.getD true))).length
    total_runtime := (tools.map (fun t => t.total_runtime.getD 0)).sum
    total_distance := (tools.map (fun t => t.total_distance.getD 0)).sum
    most_used_tool := mostUsedTool tools }

/-- tool_database.py, handle tool stats: a pure query; with the interpreter
unreachable the query raises out of the handler. -/
def handleToolStats (connected : Bool) (db : ToolDb) : Except String ToolStats :=
  if connected then Except.ok (toolStatsOf db.tools)
  else Except.error ("Klippy not connected")

/-- Spec-side, following the testable property for most used: the first
tool in listing order whose runtime is an upper bound of every runtime in
the listing, None on the empty listing. -/
def firstMaxByRuntime (tools : List Tool) : Option Tool :=
  tools.find? (fun t => tools.all (fun u => decide (keyRT u ≤ keyRT t)))

/-- True when an Except value is a returned result rather than an escaped
exception. -/
def isOkResult {ε α : Type} : Except ε α → Bool
  | Except.ok _ => true
  | Except.error _ => false

/-! ### Concrete sample data used by witnesses -/

/-- A sample tool with runtime 5. -/
def demoToolA : Tool :=
  { id := 1, name := ("A"), ttype := ("drill")
    total_runtime := some 5, total_distance := none, is_active := none }

/-- A sample tool with runtime 7, listed before the tying demoToolC. -/
def demoToolB : Tool :=
  { id := 2, name := ("B"), ttype := ("endmill")
    total_runtime := some 7, total_distance := none, is_active := none }

/-- A sample tool tying demoToolB on runtime 7. -/
def demoToolC : Tool :=
  { id := 3, name := ("C"), ttype := ("tap")
    total_runtime := some 7, total_distance := none, is_active := none }

/-- A sample listing with a runtime tie between the second and third tool. -/
def demoTools : List Tool := [demoToolA, demoToolB, demoToolC]

/-- A sample update request supplying only the name and diameter fields. -/
def demoUpdateReq : UpdateRequest :=
  { id := 1, name := some ("x"), diameter := some (7 / 2) }

/-- A concrete float renderer for witnesses.  Python float formatting is
outside the model (showF is a parameter of the embedding), so a witness may
instantiate it with any function; a constant keeps evaluation trivial. -/
def demoShowF (_q : ℚ) : String := ("3.5")

/-! ## Theorems -/

theorem handleModalState_post_trace {σ : Type} (it : Interp σ) (s : σ)
    (a c : String) (h : commandMap a = some c) :
    (handleModalState it true ReqType.post (some a) s).2.2 = [c] := by
  simp only [handleModalState, Bool.not_true, Bool.false_eq_true, if_false,
    Option.getD_some, h]
  cases hx : it.exec c s <;> simp

/-- Claim C1, counterexample: a single delivered status update whose print
stats state is complete reaches both registered completion listeners and
each issues SDCARD_RESET_FILE, so the reset is issued twice for one logical
completion, not at most once. -/
theorem claim_C1_counterexample :
    resetsIssued true true completeUpdate = 2 ∧
    1 < resetsIssued true true completeUpdate := by
  constructor
  · rfl
  · decide

/-- Claim C1, amended: there is no generation flag, test-and-set or re-arm
anywhere in the listeners; each of the two registered listeners issues one
SDCARD_RESET_FILE per delivered complete status update whenever the klippy
apis component resolves (whether or not the command is then accepted), so
one delivery yields exactly two resets and every redelivery yields two
more; with klippy unresolved no reset is issued. -/
theorem claim_C1_amended : ∀ (gcodeOk : Bool) (su : StatusUpdate),
    resetsIssued true gcodeOk su =
      (if printStatsState su == some ("complete") then 2 else 0) ∧
    resetsIssued false gcodeOk su = 0 := by
  intro gok su
  constructor <;>
    cases h : printStatsState su == some ("complete") <;>
      cases gok <;>
        simp [resetsIssued, registeredCompletionListeners,
          checkRestartExecution, checkM30Execution, tryResetViaKlippy, h]

/-- Claim C5: on a completion-triggered reset whose SDCARD_RESET_FILE fails
(rejected after the send, or the interpreter unreachable so nothing is
sent), both listeners log at debug (non-fatal), return normally (the
embedding is a total function, mirroring the enclosing try/except), and
send the command at most once with no retry. -/
theorem claim_C5 : ∀ su : StatusUpdate,
    printStatsState su = some ("complete") →
    checkRestartExecution true false su =
      { commands := [("SDCARD_RESET_FILE")]
        log := some (LogLevel.debug, ("Could not reset file position")) } ∧
    checkM30Execution true false su =
      { commands := [("SDCARD_RESET_FILE")]
        log := some (LogLevel.debug, ("Could not reset file position")) } ∧
    checkRestartExecution false false su =
      { commands := []
        log := some (LogLevel.debug, ("Could not reset file position")) } ∧
    checkM30Execution false false su =
      { commands := []
        log := some (LogLevel.debug, ("Could not reset file position")) } := by
  intro su h
  refine ⟨?_, ?_, ?_, ?_⟩ <;>
    simp [checkRestartExecution, checkM30Execution, tryResetViaKlippy, h]

/-- Claim C5, witness at the concrete complete status update. -/
theorem claim_C5_witness :
    printStatsState completeUpdate = some ("complete") ∧
    checkRestartExecution true false completeUpdate =
      { commands := [("SDCARD_RESET_FILE")]
        log := some (LogLevel.debug, ("Could not reset file position")) } :=
  ⟨rfl, (claim_C5 completeUpdate rfl).1⟩

/-- Claim C8: the POST action vocabulary is exactly save to M70, restore to
M72, invalidate to M71, auto_save to M73 (the command goes out whether or
not the downstream then accepts it), and any action outside the map yields
an Invalid action error envelope with no command sent; the map rejects
precisely the strings outside the four actions. -/
theorem claim_C8 : ∀ (σ : Type) (it : Interp σ) (s : σ),
    ((handleModalState it true ReqType.post (some ("save")) s).2.2 = [("M70")]) ∧
    ((handleModalState it true ReqType.post (some ("restore")) s).2.2 = [("M72")]) ∧
    ((handleModalState it true ReqType.post (some ("invalidate")) s).2.2 = [("M71")]) ∧
    ((handleModalState it true ReqType.post (some ("auto_save")) s).2.2 = [("M73")]) ∧
    (∀ a : String, commandMap a = none →
      handleModalState it true ReqType.post (some a) s =
        ({ result := ("error"), message := some (("Invalid action: ") ++ a)
           action := none, command := none }, s, [])) ∧
    (∀ a : String, commandMap a = none ↔
      (a ≠ ("save") ∧ a ≠ ("restore") ∧ a ≠ ("invalidate") ∧ a ≠ ("auto_save"))) := by
  intro σ it s
  refine ⟨?_, ?_, ?_, ?_, ?_, ?_⟩
  · exact handleModalState_post_trace it s _ _ rfl
  · exact handleModalState_post_trace it s _ _ rfl
  · exact handleModalState_post_trace it s _ _ rfl
  · exact handleModalState_post_trace it s _ _ rfl
  · intro a h
    simp [handleModalState, h]
  · intro a
    unfold commandMap
    split_ifs <;> simp_all

/-- Claim C8, witness: an unrecognized action at the concrete downstream
stack yields the error envelope with no command, and save sends M70. -/
theorem claim_C8_witness :
    commandMap ("frobnicate") = none ∧
    (handleModalState modalInterp true ReqType.post (some ("frobnicate")) 0).1.result
      = ("error") ∧
    (handleModalState modalInterp true ReqType.post (some ("frobnicate")) 0).2.2 = [] ∧
    (handleModalState modalInterp true ReqType.post (some ("save")) 0).2.2 = [("M70")] := by
  have h := (claim_C8 Nat modalInterp 0).2.2.2.2.1 ("frobnicate") rfl
  refine ⟨rfl, ?_, ?_, (claim_C8 Nat modalInterp 0).1⟩
  · rw [h]
  · rw [h]

/-- Claim C2, counterexample: with the downstream stack at its bound of 10,
a Save request still sends M70 — the save is not skipped, because this
layer tracks no depth at all; the claim that no save command is sent at the
bound is false. -/
theorem claim_C2_counterexample :
    (handleModalState modalInterp true ReqType.post (some ("save")) 10).2.2
      = [("M70")] ∧
    0 < (handleModalState modalInterp true ReqType.post (some ("save")) 10).2.2.length := by
  refine ⟨rfl, ?_⟩
  decide

/-- Claim C2, amended: the layer keeps no depth, so a connected Save
request always sends M70 regardless of stack depth; when the downstream
stack (modelled from the spec) is at its bound, the rejection is caught and
returned as a structured error envelope carrying the CapacityExceeded
message, with the depth unchanged. -/
theorem claim_C2_amended :
    (∀ (σ : Type) (it : Interp σ) (s : σ),
      (handleModalState it true ReqType.post (some ("save")) s).2.2 = [("M70")]) ∧
    (∀ d : Nat, 10 ≤ d →
      handleModalState modalInterp true ReqType.post (some ("save")) d =
        ({ result := ("error"), message := some ("CapacityExceeded")
           action := none, command := none }, d, [("M70")])) := by
  constructor
  · intro σ it s
    exact handleModalState_post_trace it s _ _ rfl
  · intro d hd
    have hx : modalInterp.exec ("M70") d = Except.error ("CapacityExceeded") := by
      simp [modalInterp, modalExec, hd]
    simp [handleModalState, commandMap, hx]

/-- Claim C2, amended, witness at depth exactly the bound. -/
theorem claim_C2_amended_witness :
    (10 : Nat) ≤ 10 ∧
    handleModalState modalInterp true ReqType.post (some ("save")) 10 =
      ({ result := ("error"), message := some ("CapacityExceeded")
         action := none, command := none }, 10, [("M70")]) :=
  ⟨le_refl 10, claim_C2_amended.2 10 (le_refl 10)⟩

/-- Claim C3, counterexample: a Restore (and an InvalidateTop) on the empty
downstream stack returns an envelope whose result field is error, not a
benign success-with-note NoStateSaved status; no such benign status exists
anywhere in the handler. -/
theorem claim_C3_counterexample :
    (handleModalState modalInterp true ReqType.post (some ("restore")) 0).1.result
      = ("error") ∧
    (handleModalState modalInterp true ReqType.post (some ("invalidate")) 0).1.result
      = ("error") :=
  ⟨rfl, rfl⟩

/-- Claim C3, amended: Restore and InvalidateTop on an empty stack send
their command; the downstream rejection is caught and surfaced as a
structured error envelope carrying the rejection message — an error result
rather than a success-with-note, though no exception ever escapes (the
handler embedding is a total function). -/
theorem claim_C3_amended : ∀ (σ : Type) (it : Interp σ) (s : σ) (e : String),
    (it.exec ("M72") s = Except.error e →
      handleModalState it true ReqType.post (some ("restore")) s =
        ({ result := ("error"), message := some e
           action := none, command := none }, s, [("M72")])) ∧
    (it.exec ("M71") s = Except.error e →
      handleModalState it true ReqType.post (some ("invalidate")) s =
        ({ result := ("error"), message := some e
           action := none, command := none }, s, [("M71")])) := by
  intro σ it s e
  constructor <;> intro h <;> simp [handleModalState, commandMap, h]

/-- Claim C3, amended, witness on the empty concrete stack. -/
theorem claim_C3_amended_witness :
    modalInterp.exec ("M72") 0 = Except.error ("NoStateSaved") ∧
    handleModalState modalInterp true ReqType.post (some ("restore")) 0 =
      ({ result := ("error"), message := some ("NoStateSaved")
         action := none, command := none }, 0, [("M72")]) :=
  ⟨rfl, (claim_C3_amended Nat modalInterp 0 ("NoStateSaved")).1 rfl⟩

theorem clearLoop_length {σ : Type} (it : Interp σ) :
    ∀ (n : Nat) (s : σ), (clearLoop it s n).2.length ≤ n := by
  intro n
  induction n with
  | zero => intro s; simp [clearLoop]
  | succ n ih =>
    intro s
    cases hx : it.exec ("M71") s with
    | error e => simp [clearLoop, hx]
    | ok s2 =>
      simp only [clearLoop, hx, List.length_cons]
      exact Nat.succ_le_succ (ih s2)

theorem clearLoop_all_m71 {σ : Type} (it : Interp σ) :
    ∀ (n : Nat) (s : σ) (c : String), c ∈ (clearLoop it s n).2 → c = ("M71") := by
  intro n
  induction n with
  | zero => intro s c hc; simp [clearLoop] at hc
  | succ n ih =>
    intro s c hc
    cases hx : it.exec ("M71") s with
    | error e =>
      simp [clearLoop, hx] at hc
      exact hc
    | ok s2 =>
      simp only [clearLoop, hx, List.mem_cons] at hc
      rcases hc with hc | hc
      · exact hc
      · exact ih s2 c hc

/-- Claim C4: the DELETE branch of the modal-state endpoint performs at
most 10 single-pop discard attempts whatever the downstream state, every
command it sends is M71, and it stops with exactly one attempt as soon as
the discard is rejected; the loop is structurally bounded, so it always
terminates. -/
theorem claim_C4 : ∀ (σ : Type) (it : Interp σ) (a : Option String) (s : σ),
    (handleModalState it true ReqType.delete a s).2.2.length ≤ 10 ∧
    (∀ c ∈ (handleModalState it true ReqType.delete a s).2.2, c = ("M71")) ∧
    (∀ e : String, it.exec ("M71") s = Except.error e →
      (handleModalState it true ReqType.delete a s).2.2 = [("M71")]) := by
  intro σ it a s
  have htr : (handleModalState it true ReqType.delete a s).2.2
      = (clearLoop it s 10).2 := by
    simp [handleModalState]
  refine ⟨?_, ?_, ?_⟩
  · rw [htr]; exact clearLoop_length it 10 s
  · rw [htr]; exact fun c hc => clearLoop_all_m71 it 10 s c hc
  · intro e he
    rw [htr]
    simp [clearLoop, he]

/-- Claim C4, witness on the empty concrete stack: the first discard is
rejected, so exactly one M71 goes out. -/
theorem claim_C4_witness :
    modalInterp.exec ("M71") 0 = Except.error ("NoStateSaved") ∧
    (handleModalState modalInterp true ReqType.delete none 0).2.2 = [("M71")] ∧
    (handleModalState modalInterp true ReqType.delete none 0).2.2.length ≤ 10 :=
  ⟨rfl, (claim_C4 Nat modalInterp none 0).2.2 ("NoStateSaved") rfl,
    (claim_C4 Nat modalInterp none 0).1⟩

/-- Claim C6, counterexample: a ToolDatabaseAPI operation invoked with the
interpreter unreachable does not return a structured not-connected result —
the failure escapes the handler as an exception (the handlers contain no
connectivity check and no try/except), falsifying the claim for this
layer's tool-database operations. -/
theorem claim_C6_counterexample :
    isOkResult (handleStartMonitoring false true).1 = false ∧
    (handleStartMonitoring false true).1 = Except.error ("Klippy not connected") :=
  ⟨rfl, rfl⟩

/-- Claim C6, amended: the CNCMCodesHandler modal-state endpoint checks
connectivity first and returns the structured non-fatal Klippy not
connected envelope with no command sent and no exception; the
ToolDatabaseAPI handlers perform no such check — with the interpreter
unreachable the underlying failure propagates out of each handler as an
exception (still with no command sent). -/
theorem claim_C6_amended :
    (∀ (σ : Type) (it : Interp σ) (rt : ReqType) (a : Option String) (s : σ),
      handleModalState it false rt a s =
        ({ result := ("error"), message := some ("Klippy not connected")
           action := none, command := none }, s, [])) ∧
    (∀ (gok : Bool) (n : Int),
      handleDeleteTool false gok n = (Except.error ("Klippy not connected"), [])) ∧
    (∀ gok : Bool,
      handleStartMonitoring false gok = (Except.error ("Klippy not connected"), [])) ∧
    (∀ (gok : Bool) (idArg : Option Int) (db : ToolDb),
      handleToolInfo false gok idArg db =
        (Except.error (ToolInfoErr.gcodeErr ("Klippy not connected")), [])) ∧
    (∀ (gok : Bool) (showF : ℚ → String) (req : UpdateRequest),
      handleUpdateTool false gok showF req =
        (Except.error ("Klippy not connected"), [])) ∧
    (∀ db : ToolDb, handleToolStats false db = Except.error ("Klippy not connected")) := by
  refine ⟨?_, ?_, ?_, ?_, ?_, ?_⟩ <;> intros <;> rfl

/-- Claim C10: a tool-info request with identifier 0 behaves exactly like a
request with no identifier — the bare TOOL_INFO command is issued and the
result resolves to the current tool — and with the command accepted the 404
outcome occurs precisely when no current tool is selected. -/
theorem claim_C10 : ∀ (connected gcodeOk : Bool) (db : ToolDb),
    handleToolInfo connected gcodeOk (some 0) db =
      handleToolInfo connected gcodeOk none db ∧
    toolInfoGcode (some 0) = ("TOOL_INFO") ∧
    ((handleToolInfo true true (some 0) db).1 = Except.error ToolInfoErr.notFound ↔
      db.current_tool = none) := by
  intro c g db
  refine ⟨?_, rfl, ?_⟩
  · simp [handleToolInfo, toolInfoGcode, pyTruthyInt]
  · cases hdb : db.current_tool <;>
      simp [handleToolInfo, tdRun, pyTruthyInt, toolInfoGcode, hdb]

/-- Claim C10, witness: with no current tool selected, identifier 0 resolves
like a bare request and yields the 404 outcome. -/
theorem claim_C10_witness :
    (handleToolInfo true true (some 0) { tools := [], current_tool := none }).1 =
      Except.error ToolInfoErr.notFound ∧
    handleToolInfo true true (some 0) { tools := [], current_tool := none } =
      handleToolInfo true true none { tools := [], current_tool := none } :=
  ⟨(claim_C10 true true { tools := [], current_tool := none }).2.2.mpr rfl,
    (claim_C10 true true { tools := [], current_tool := none }).1⟩

theorem gcodeName_injective : Function.Injective gcodeName := by
  decide

theorem mem_updateFields : ∀ f : UField, f ∈ updateFields := by
  decide

theorem foldl_render_eq_concat (g : UField → Option String) :
    ∀ (l : List UField) (init : String),
      l.foldl
        (fun acc f =>
          match g f with
          | none => acc
          | some v => acc ++ (" ") ++ gcodeName f ++ ("=") ++ v)
        init
      = init ++ concatSegs
          ((l.filterMap (fun f => (g f).map (fun v => (gcodeName f, v)))).map
            (fun p => (" ") ++ p.1 ++ ("=") ++ p.2)) := by
  intro l
  induction l with
  | nil => intro init; simp [concatSegs]
  | cons f l ih =>
    intro init
    cases hf : g f with
    | none => simp [List.foldl_cons, List.filterMap_cons, hf, ih]
    | some v =>
      simp only [List.foldl_cons, List.filterMap_cons, hf, Option.map_some,
        List.map_cons, concatSegs, ih]
      simp [String.append_assoc]

/-- Claim C9: the update command is exactly the UPDATE_TOOL ID= prefix
followed, in the fixed params order, by one FIELD=value pair per supplied
field; a pair for a field occurs in the supplied pairs precisely when that
field was supplied with that rendered value, so unsupplied fields
contribute nothing to the patch; the connected handler sends exactly this
one command. -/
theorem claim_C9 : ∀ (showF : ℚ → String) (req : UpdateRequest),
    buildUpdateGcode showF req = specUpdateCommand showF req ∧
    (handleUpdateTool true true showF req).2 = [buildUpdateGcode showF req] ∧
    (∀ (f : UField) (v : String),
      (gcodeName f, v) ∈ suppliedPairs showF req ↔
        renderedField showF req f = some v) := by
  intro showF req
  refine ⟨?_, rfl, ?_⟩
  · exact foldl_render_eq_concat (renderedField showF req) updateFields _
  · intro f v
    constructor
    · intro hm
      rw [suppliedPairs, List.mem_filterMap] at hm
      obtain ⟨f2, _, hmap⟩ := hm
      cases hrf : renderedField showF req f2 with
      | none => rw [hrf] at hmap; exact Option.noConfusion hmap
      | some v2 =>
        rw [hrf] at hmap
        have hmap2 : (gcodeName f2, v2) = (gcodeName f, v) := Option.some.inj hmap
        have hn : gcodeName f2 = gcodeName f := congrArg Prod.fst hmap2
        have hv : v2 = v := congrArg Prod.snd hmap2
        have hf2 : f2 = f := gcodeName_injective hn
        rw [← hf2, hrf, hv]
    · intro hr
      rw [suppliedPairs, List.mem_filterMap]
      refine ⟨f, mem_updateFields f, ?_⟩
      rw [hr]
      rfl

/-- Claim C9, witness: a request supplying only name and diameter produces
exactly those two pairs after the prefix. -/
theorem claim_C9_witness :
    buildUpdateGcode demoShowF demoUpdateReq = specUpdateCommand demoShowF demoUpdateReq ∧
    buildUpdateGcode demoShowF demoUpdateReq
      = ("UPDATE_TOOL ID=1 NAME=\"x\" DIAMETER=3.5") ∧
    (gcodeName UField.diameter, ("3.5")) ∈ suppliedPairs demoShowF demoUpdateReq := by
  refine ⟨(claim_C9 demoShowF demoUpdateReq).1, ?_, ?_⟩
  · decide
  · exact ((claim_C9 demoShowF demoUpdateReq).2.2 UField.diameter ("3.5")).mpr (by decide)

theorem list_find_ext {α : Type} (p q : α → Bool) :
    ∀ l : List α, (∀ a ∈ l, p a = q a) → l.find? p = l.find? q := by
  intro l
  induction l with
  | nil => intro _; rfl
  | cons a l ih =>
    intro h
    have ha : p a = q a := h a (List.mem_cons_self a l)
    cases hq : q a with
    | true =>
      rw [List.find?_cons_of_pos l (by rw [ha]; exact hq),
        List.find?_cons_of_pos l hq]
    | false =>
      rw [List.find?_cons_of_neg l (by rw [ha, hq]; exact Bool.false_ne_true),
        List.find?_cons_of_neg l (by rw [hq]; exact Bool.false_ne_true)]
      exact ih (fun b hb => h b (List.mem_cons_of_mem a hb))

theorem pyMax_eq_firstMax {α : Type} (key : α → ℚ) :
    ∀ (xs : List α) (x : α),
      List.find? (fun t => (x :: xs).all (fun u => decide (key u ≤ key t))) (x :: xs)
        = some (xs.foldl (fun b y => if key b < key y then y else b) x) := by
  intro xs
  induction xs with
  | nil =>
    intro x
    simp [List.find?_cons_of_pos, List.all_cons]
  | cons y ys ih =>
    intro x
    by_cases hxy : key x < key y
    · rw [List.foldl_cons, if_pos hxy]
      have hPx : ¬ ((fun t => (x :: y :: ys).all (fun u => decide (key u ≤ key t))) x
          = true) := by
        simp only [List.all_cons, Bool.and_eq_true, decide_eq_true_eq]
        intro hc
        exact absurd hc.2.1 (not_le.mpr hxy)
      rw [List.find?_cons_of_neg (y :: ys) hPx]
      have hext : ∀ t ∈ (y :: ys),
          ((x :: y :: ys).all (fun u => decide (key u ≤ key t)))
            = ((y :: ys).all (fun u => decide (key u ≤ key t))) := by
        intro t _
        cases hall : (y :: ys).all (fun u => decide (key u ≤ key t)) with
        | false => simp [List.all_cons, hall]
        | true =>
          have hy : key y ≤ key t :=
            of_decide_eq_true
              (List.all_eq_true.mp hall y (List.mem_cons_self y ys))
          have hx : key x ≤ key t := le_trans (le_of_lt hxy) hy
          simp [List.all_cons, hall, hx]
      rw [list_find_ext _ _ (y :: ys) hext]
      exact ih y
    · have hyx : key y ≤ key x := not_lt.mp hxy
      rw [List.foldl_cons, if_neg hxy]
      by_cases hPx : ((x :: y :: ys).all (fun u => decide (key u ≤ key x))) = true
      · rw [List.find?_cons_of_pos (y :: ys) hPx]
        have hQx : ((x :: ys).all (fun u => decide (key u ≤ key x))) = true := by
          simp only [List.all_cons, Bool.and_eq_true, decide_eq_true_eq] at hPx ⊢
          exact ⟨hPx.1, hPx.2.2⟩
        have hihx := ih x
        rw [List.find?_cons_of_pos ys hQx] at hihx
        exact hihx
      · have hPy : ¬ ((x :: y :: ys).all (fun u => decide (key u ≤ key y)) = true) := by
          intro hc
          apply hPx
          simp only [List.all_cons, Bool.and_eq_true, decide_eq_true_eq] at hc ⊢
          refine ⟨le_refl _, hyx, List.all_eq_true.mpr (fun u hu => ?_)⟩
          exact decide_eq_true
            (le_trans (of_decide_eq_true (List.all_eq_true.mp hc.2.2 u hu)) hyx)
        rw [List.find?_cons_of_neg (y :: ys) hPx, List.find?_cons_of_neg ys hPy]
        have hQx : ¬ ((x :: ys).all (fun u => decide (key u ≤ key x)) = true) := by
          intro hc
          apply hPx
          simp only [List.all_cons, Bool.and_eq_true, decide_eq_true_eq] at hc ⊢
          exact ⟨hc.1, hyx, hc.2⟩
        have hihx := ih x
        rw [List.find?_cons_of_neg ys hQx] at hihx
        rw [← hihx]
        apply list_find_ext
        intro t ht
        by_cases hxt : key x ≤ key t
        · have hyt : key y ≤ key t := le_trans hyx hxt
          simp [List.all_cons, hxt, hyt]
        · simp [List.all_cons, hxt]

/-- Claim C7: the stats handler's most used tool equals, on every listing,
the first tool in listing order whose runtime (absent runtime counting 0)
bounds every runtime in the listing — so a strictly greatest runtime wins,
ties go to the first tool encountered (the fold never replaces the
champion on an equal key, hence no re-sorting), and the empty listing
yields none; any selected tool is a member of the listing and its runtime
is a maximum. -/
theorem claim_C7 : ∀ (db : ToolDb),
    handleToolStats true db = Except.ok (toolStatsOf db.tools) ∧
    (toolStatsOf db.tools).most_used_tool = firstMaxByRuntime db.tools ∧
    (∀ t : Tool, firstMaxByRuntime db.tools = some t →
      t ∈ db.tools ∧ ∀ u ∈ db.tools, keyRT u ≤ keyRT t) := by
  intro db
  refine ⟨rfl, ?_, ?_⟩
  · show mostUsedTool db.tools = firstMaxByRuntime db.tools
    cases h : db.tools with
    | nil => rfl
    | cons x xs =>
      show pyMaxBy keyRT (x :: xs) = firstMaxByRuntime (x :: xs)
      rw [firstMaxByRuntime, pyMaxBy]
      exact (pyMax_eq_firstMax keyRT xs x).symm
  · intro t ht
    rw [firstMaxByRuntime] at ht
    refine ⟨List.mem_of_find?_eq_some ht, fun u hu => ?_⟩
    have hp := List.find?_some ht
    exact of_decide_eq_true (List.all_eq_true.mp hp u hu)

/-- Claim C7, witness: on a listing with runtimes 5, 7, 7 the second tool
(the first of the two tying on 7) is selected and belongs to the listing. -/
theorem claim_C7_witness :
    (toolStatsOf demoTools).most_used_tool = some demoToolB ∧
    demoToolB ∈ demoTools := by
  have h := claim_C7 { tools := demoTools, current_tool := none }
  exact ⟨h.2.1.trans (by decide), (h.2.2 demoToolB (by decide)).1⟩
